import Mathlib

/-!
Verification of the fitwin measurement core: the normalization/validation
pipeline (`backend/app/core/validation.py`, `backend/app/schemas/measure_schema.py`)
and the resilient remote invoker with retry and circuit breaker
(`agents/tools/measurement_tools.py`).

Python floats are modelled as rationals; `math.sqrt` and `math.pi` are
modelled by an abstract oracle (`GeomOracle`) supplying a square-root
function and a value for pi, since the claims under study depend only on
sign information about these quantities.
-/

namespace FitTwin

/-! ## Remote invoker: circuit breaker, retry loop, tools
Embedding of `agents/tools/measurement_tools.py` (the coherent draft:
`CircuitBreaker` at lines 48-69, `_post_with_retry` at lines 100-127,
`validate_measurements` at lines 150-195, `recommend_sizes` at lines 294-335).
-/

/-- Mirror of `MAX_RETRIES = 1` from `measurement_tools.py`. -/
def MAX_RETRIES : Nat := 1

/-- Mirror of the `CircuitBreaker` class state: `failure_threshold`,
`failure_count`, `is_open`. -/
structure CircuitBreaker where
  failure_threshold : Nat
  failure_count : Nat
  is_open : Bool
deriving DecidableEq, Repr

/-- Mirror of `CircuitBreaker(failure_threshold=3)` — the construction used for the
module-level `validate_breaker` and `recommend_breaker` singletons. -/
def CircuitBreaker.init : CircuitBreaker :=
  { failure_threshold := 3, failure_count := 0, is_open := false }

/-- Mirror of `CircuitBreaker.call_failed`: increment the count, open the circuit when
the threshold is reached (otherwise `is_open` keeps its previous value). -/
def CircuitBreaker.call_failed (b : CircuitBreaker) : CircuitBreaker :=
  let c := b.failure_count + 1
  { b with
    failure_count := c
    is_open := if b.failure_threshold ≤ c then true else b.is_open }

/-- Mirror of `CircuitBreaker.call_succeeded`: reset the counter and close the circuit. -/
def CircuitBreaker.call_succeeded (b : CircuitBreaker) : CircuitBreaker :=
  { b with failure_count := 0, is_open := false }

/-- Mirror of `CircuitBreaker.can_proceed`: calls may proceed only while closed. -/
def CircuitBreaker.can_proceed (b : CircuitBreaker) : Bool :=
  !b.is_open

/-- Outcome of one `requests.post` attempt: an HTTP response (status plus the
decoded JSON body, kept abstract as a string), a transport timeout
(`requests.exceptions.Timeout`), or another transport failure
(`requests.exceptions.RequestException`). The network is modelled as a
function from the attempt index to its outcome. -/
inductive AttemptOutcome where
  | resp (status : Nat) (body : String)
  | timeout
  | connError
deriving DecidableEq, Repr

/-- Result of the `_post_with_retry` loop: a returned response, a raised
`Timeout` (after the retry budget is spent), a raised `RequestException`,
or the dead fall-through path after the loop (`RuntimeError`). -/
inductive PostResult where
  | response (status : Nat) (body : String)
  | timedOut
  | connFailed
  | loopExit
deriving DecidableEq, Repr

/-- Body of the `for attempt in range(MAX_RETRIES + 1)` loop of
`_post_with_retry`, with explicit fuel (the number of loop iterations still
available). Returns the loop result together with the number of network
attempts performed. Statuses 500/502/503/504 back off and retry while
attempts remain; 429 sleeps a fixed cooldown and retries while attempts
remain; any other response is returned; a timeout retries while attempts
remain and is re-raised on the last attempt; any other transport error is
re-raised at once. -/
def postWithRetryAux (net : Nat → AttemptOutcome) : Nat → Nat → PostResult × Nat
  | 0, _ => (.loopExit, 0)
  | fuel + 1, attempt =>
    match net attempt with
    | .resp status body =>
      if (status = 500 ∨ status = 502 ∨ status = 503 ∨ status = 504) ∧
          attempt < MAX_RETRIES then
        let r := postWithRetryAux net fuel (attempt + 1)
        (r.1, r.2 + 1)
      else if status = 429 ∧ attempt < MAX_RETRIES then
        let r := postWithRetryAux net fuel (attempt + 1)
        (r.1, r.2 + 1)
      else
        (.response status body, 1)
    | .timeout =>
      if attempt < MAX_RETRIES then
        let r := postWithRetryAux net fuel (attempt + 1)
        (r.1, r.2 + 1)
      else
        (.timedOut, 1)
    | .connError => (.connFailed, 1)

/-- Mirror of `_post_with_retry`: run the attempt loop with its full budget of
`MAX_RETRIES + 1` iterations starting at attempt 0. -/
def post_with_retry (net : Nat → AttemptOutcome) : PostResult × Nat :=
  postWithRetryAux net (MAX_RETRIES + 1) 0

/-- The dictionary returned by a tool call, as a tagged value.
`success` carries `response.json()`; `validation422` carries
`response.json().get("detail", {})` (the dict `{"error": detail,
"status_code": 422}`, which has no `"type"` key); the remaining
constructors carry the `"type"`-tagged error dicts. -/
inductive ToolResult where
  | success (body : String)
  | circuitOpen
  | timeoutErr
  | connErr
  | validation422 (detail : String)
  | serverErr (status : Nat)
  | rateLimited
  | unexpected (status : Nat)
  | loopBug
deriving DecidableEq, Repr

/-- The `"type"` entry of the returned dict, when present. -/
def ToolResult.rtype : ToolResult → Option String
  | .success _ => none
  | .circuitOpen => some "circuit_breaker_error"
  | .timeoutErr => some "timeout_error"
  | .connErr => some "connection_error"
  | .validation422 _ => none
  | .serverErr _ => some "server_error"
  | .rateLimited => some "rate_limit_error"
  | .unexpected _ => some "unexpected_error"
  | .loopBug => none

/-- Mirror of `validate_measurements` tool: gate on the breaker, run
`_post_with_retry`, then branch on the outcome (200 → success and breaker
reset; 422 → surface the detail payload and breaker reset; 5xx → server
error and breaker failure; 429 → rate-limit error, breaker untouched;
anything else → unexpected error and breaker failure; raised timeout /
connection errors → breaker failure). Returns the result, the breaker
state after the call, and the number of network attempts performed. -/
def validate_measurements (net : Nat → AttemptOutcome) (b : CircuitBreaker) :
    ToolResult × CircuitBreaker × Nat :=
  if !b.can_proceed then (.circuitOpen, b, 0)
  else
    match post_with_retry net with
    | (.timedOut, n) => (.timeoutErr, b.call_failed, n)
    | (.connFailed, n) => (.connErr, b.call_failed, n)
    | (.loopExit, n) => (.loopBug, b, n)
    | (.response status body, n) =>
      if status = 200 then (.success body, b.call_succeeded, n)
      else if status = 422 then (.validation422 body, b.call_succeeded, n)
      else if status = 500 ∨ status = 502 ∨ status = 503 ∨ status = 504 then
        (.serverErr status, b.call_failed, n)
      else if status = 429 then (.rateLimited, b, n)
      else (.unexpected status, b.call_failed, n)

/-- Mirror of `recommend_sizes` tool: same shape as `validate_measurements` except
that the branch on the response status has **no 422 case** — a 422 falls
through to the final `unexpected_error` branch, which records a breaker
failure. -/
def recommend_sizes (net : Nat → AttemptOutcome) (b : CircuitBreaker) :
    ToolResult × CircuitBreaker × Nat :=
  if !b.can_proceed then (.circuitOpen, b, 0)
  else
    match post_with_retry net with
    | (.timedOut, n) => (.timeoutErr, b.call_failed, n)
    | (.connFailed, n) => (.connErr, b.call_failed, n)
    | (.loopExit, n) => (.loopBug, b, n)
    | (.response status body, n) =>
      if status = 200 then (.success body, b.call_succeeded, n)
      else if status = 500 ∨ status = 502 ∨ status = 503 ∨ status = 504 then
        (.serverErr status, b.call_failed, n)
      else if status = 429 then (.rateLimited, b, n)
      else (.unexpected status, b.call_failed, n)

/-! ## Data model (`measure_schema.py`, `errors.py`)
Floats are modelled as rationals. A request payload is modelled as the raw
JSON object: an association list from key to value, which also serves as
the constructed `MeasurementInput` (the model stores extra keys because of
`extra="allow"`, and `model_dump(exclude_unset=True)` returns exactly the
supplied keys). -/

/-- Mirror of `MediaPipeLandmark`: a 3D point with a visibility score. Also used for
the denormalized pixel-space point dicts inside the geometry code. -/
structure Landmark where
  x : ℚ
  y : ℚ
  z : ℚ
  visibility : ℚ
deriving DecidableEq, Repr

/-- Mirror of `MediaPipeLandmarks`: a landmark list plus image dimensions. -/
structure MediaPipeLandmarks where
  landmarks : List Landmark
  timestamp : String
  image_width : Int
  image_height : Int
deriving DecidableEq, Repr

/-- A JSON-ish value in a request payload. -/
inductive RawValue where
  | num (q : ℚ)
  | str (s : String)
  | lmk (l : MediaPipeLandmarks)
  | null
deriving DecidableEq, Repr

/-- A request payload: the raw JSON object as an association list. -/
abbrev Payload := List (String × RawValue)

/-- Mirror of `CANONICAL_FIELDS` from `validation.py`, in declaration order. -/
def CANONICAL_FIELDS : List String :=
  ["height", "neck", "shoulder", "chest", "underbust", "waist_natural",
   "sleeve", "bicep", "forearm", "hip_low", "thigh", "knee", "calf",
   "ankle", "front_rise", "back_rise", "inseam", "outseam"]

/-- Mirror of `ALLOWED_META_FIELDS` from `validation.py`. -/
def ALLOWED_META_FIELDS : List String :=
  ["unit", "session_id", "front_landmarks", "side_landmarks",
   "front_photo_url", "side_photo_url", "source_type", "platform",
   "arkit_body_anchor", "arkit_depth_map", "browser_info",
   "processing_location", "device_id"]

/-- Mirror of `sorted(CANONICAL_FIELDS)` — the order used in the hint string. -/
def CANONICAL_FIELDS_SORTED : List String :=
  ["ankle", "back_rise", "bicep", "calf", "chest", "forearm", "front_rise",
   "height", "hip_low", "inseam", "knee", "neck", "outseam", "shoulder",
   "sleeve", "thigh", "underbust", "waist_natural"]

/-- Mirror of `ErrorDetail` from `errors.py`. -/
structure ErrorDetail where
  field : String
  message : String
  hint : Option String
deriving DecidableEq, Repr

/-- The 18 required output fields of `MeasurementNormalized`, in schema
declaration order. -/
def REQUIRED_CM_FIELDS : List String :=
  ["height_cm", "neck_cm", "shoulder_cm", "chest_cm", "underbust_cm",
   "waist_natural_cm", "sleeve_cm", "bicep_cm", "forearm_cm", "hip_low_cm",
   "thigh_cm", "knee_cm", "calf_cm", "ankle_cm", "front_rise_cm",
   "back_rise_cm", "inseam_cm", "outseam_cm"]

/-- Mirror of `MeasurementNormalized` from `measure_schema.py`: the 18 centimeter
fields (declared without defaults, hence required) plus metadata. -/
structure MeasurementNormalized where
  height_cm : ℚ
  neck_cm : ℚ
  shoulder_cm : ℚ
  chest_cm : ℚ
  underbust_cm : ℚ
  waist_natural_cm : ℚ
  sleeve_cm : ℚ
  bicep_cm : ℚ
  forearm_cm : ℚ
  hip_low_cm : ℚ
  thigh_cm : ℚ
  knee_cm : ℚ
  calf_cm : ℚ
  ankle_cm : ℚ
  front_rise_cm : ℚ
  back_rise_cm : ℚ
  inseam_cm : ℚ
  outseam_cm : ℚ
  source : String
  model_version : String
  confidence : ℚ
  accuracy_estimate : Option ℚ
  session_id : Option String
  front_photo_url : Option String
  side_photo_url : Option String
  front_landmarks_id : Option String
  side_landmarks_id : Option String
deriving DecidableEq

/-! ## Geometry (`validation.py`)
`math.sqrt` and `math.pi` are supplied by an abstract oracle; every other
operation is exact rational arithmetic. -/

/-- Oracle for the two irrational ingredients of the geometry code. -/
structure GeomOracle where
  sqrtQ : ℚ → ℚ
  piQ : ℚ

/-- Mirror of `inches_to_cm`: multiply by 2.54. -/
def inches_to_cm (inches : ℚ) : ℚ :=
  inches * (254 / 100)

/-- Mirror of `calculate_distance`: Euclidean distance between two 3D points,
with `math.sqrt` taken from the oracle. -/
def calculate_distance (g : GeomOracle) (p1 p2 : Landmark) : ℚ :=
  let dx := p2.x - p1.x
  let dy := p2.y - p1.y
  let dz := p2.z - p1.z
  g.sqrtQ (dx * dx + dy * dy + dz * dz)

/-- List indexing `pts[i]` (the code assumes 33 landmarks; out-of-range
access is given a zero default in the embedding). -/
def getPt (l : List Landmark) (i : Nat) : Landmark :=
  l.getD i ⟨0, 0, 0, 0⟩

/-- Mirror of `denormalize_point`: scale normalized coordinates to pixel space
(`z` uses the image width, like `x`). -/
def denormalize_point (pt : Landmark) (img_width img_height : Int) : Landmark :=
  { x := pt.x * (img_width : ℚ)
    y := pt.y * (img_height : ℚ)
    z := pt.z * (img_width : ℚ)
    visibility := pt.visibility }

/-- Mirror of `front_px[i]`: denormalized front landmark `i`. -/
def frontPx (f : MediaPipeLandmarks) (i : Nat) : Landmark :=
  denormalize_point (getPt f.landmarks i) f.image_width f.image_height

/-- Mirror of `side_px[i]`: denormalized side landmark `i`. -/
def sidePx (s : MediaPipeLandmarks) (i : Nat) : Landmark :=
  denormalize_point (getPt s.landmarks i) s.image_width s.image_height

/-- Mirror of `REFERENCE_HEIGHT_CM = 170.0`. -/
def REFERENCE_HEIGHT_CM : ℚ := 170

/-- Mirror of `ankle_y`: average of the two front ankle pixel heights. -/
def ankle_y (f : MediaPipeLandmarks) : ℚ :=
  ((frontPx f 27).y + (frontPx f 28).y) / 2

/-- Mirror of `height_pixels = abs(ankle_y - head_y)` with the nose as head proxy. -/
def height_pixels (f : MediaPipeLandmarks) : ℚ :=
  |ankle_y f - (frontPx f 0).y|

/-- Mirror of `pixels_per_cm`, anchored on the reference stature, defaulting to 1. -/
def pixels_per_cm (f : MediaPipeLandmarks) : ℚ :=
  if height_pixels f > 0 then height_pixels f / REFERENCE_HEIGHT_CM else 1

/-- Mirror of `shoulder_width_cm`. -/
def shoulder_width_cm (g : GeomOracle) (f : MediaPipeLandmarks) : ℚ :=
  calculate_distance g (frontPx f 11) (frontPx f 12) / pixels_per_cm f

/-- Mirror of `chest_width_cm = shoulder_width_cm * 1.05`. -/
def chest_width_cm (g : GeomOracle) (f : MediaPipeLandmarks) : ℚ :=
  shoulder_width_cm g f * (105 / 100)

/-- Mirror of `chest_depth_cm` after both assignments: side-view depth (with a
shoulder-based fallback), clamped from below by half the chest width. -/
def chest_depth_cm (g : GeomOracle) (f s : MediaPipeLandmarks) : ℚ :=
  let px := |(sidePx s 11).z - (sidePx s 12).z|
  let c := if px > 0 then px / pixels_per_cm f else shoulder_width_cm g f * (1 / 2)
  max c (chest_width_cm g f * (1 / 2))

/-- Mirror of `chest_cm = pi * (chest_width_cm + chest_depth_cm) / 2`. -/
def chest_cm (g : GeomOracle) (f s : MediaPipeLandmarks) : ℚ :=
  g.piQ * (chest_width_cm g f + chest_depth_cm g f s) / 2

/-- Mirror of `waist_y`: average pixel height of shoulders and hips. -/
def waist_y (f : MediaPipeLandmarks) : ℚ :=
  ((frontPx f 11).y + (frontPx f 12).y + (frontPx f 23).y + (frontPx f 24).y) / 4

/-- Mirror of `waist_width_cm = (hip distance * 0.85) / pixels_per_cm`. -/
def waist_width_cm (g : GeomOracle) (f : MediaPipeLandmarks) : ℚ :=
  calculate_distance g (frontPx f 23) (frontPx f 24) * (85 / 100) / pixels_per_cm f

/-- Mirror of `waist_depth_cm`: side-view hip depth scaled by 0.8, with fallback. -/
def waist_depth_cm (g : GeomOracle) (f s : MediaPipeLandmarks) : ℚ :=
  let px := |(sidePx s 23).z - (sidePx s 24).z| * (8 / 10)
  if px > 0 then px / pixels_per_cm f else waist_width_cm g f * (1 / 2)

/-- Mirror of `waist_cm = pi * (waist_width_cm + waist_depth_cm) / 2`. -/
def waist_cm (g : GeomOracle) (f s : MediaPipeLandmarks) : ℚ :=
  g.piQ * (waist_width_cm g f + waist_depth_cm g f s) / 2

/-- Mirror of `hip_width_cm`. -/
def hip_width_cm (g : GeomOracle) (f : MediaPipeLandmarks) : ℚ :=
  calculate_distance g (frontPx f 23) (frontPx f 24) / pixels_per_cm f

/-- Mirror of `hip_depth_cm`: side-view hip depth with a width-based fallback. -/
def hip_depth_cm (g : GeomOracle) (f s : MediaPipeLandmarks) : ℚ :=
  let px := |(sidePx s 23).z - (sidePx s 24).z|
  if px > 0 then px / pixels_per_cm f else hip_width_cm g f * (55 / 100)

/-- Mirror of `hip_cm = pi * (hip_width_cm + hip_depth_cm) / 2`. -/
def hip_cm (g : GeomOracle) (f s : MediaPipeLandmarks) : ℚ :=
  g.piQ * (hip_width_cm g f + hip_depth_cm g f s) / 2

/-- Mirror of `inseam_cm`: ankle-to-hip distance over pixels-per-cm. -/
def inseam_cm (g : GeomOracle) (f : MediaPipeLandmarks) : ℚ :=
  calculate_distance g (frontPx f 27) (frontPx f 23) / pixels_per_cm f

/-- Mirror of `outseam_cm = abs(ankle_y - waist_y) / pixels_per_cm`. -/
def outseam_cm (f : MediaPipeLandmarks) : ℚ :=
  |ankle_y f - waist_y f| / pixels_per_cm f

/-- Mirror of `sleeve_cm`: shoulder-to-wrist distance over pixels-per-cm. -/
def sleeve_cm (g : GeomOracle) (f : MediaPipeLandmarks) : ℚ :=
  calculate_distance g (frontPx f 11) (frontPx f 15) / pixels_per_cm f

/-- Mirror of `bicep_cm`: upper-arm length times 0.9. -/
def bicep_cm (g : GeomOracle) (f : MediaPipeLandmarks) : ℚ :=
  calculate_distance g (frontPx f 11) (frontPx f 13) / pixels_per_cm f * (9 / 10)

/-- Mirror of `forearm_cm`: forearm length times 0.85. -/
def forearm_cm (g : GeomOracle) (f : MediaPipeLandmarks) : ℚ :=
  calculate_distance g (frontPx f 13) (frontPx f 15) / pixels_per_cm f * (85 / 100)

/-- Mirror of `thigh_cm`: hip-to-knee length times 1.3. -/
def thigh_cm (g : GeomOracle) (f : MediaPipeLandmarks) : ℚ :=
  calculate_distance g (frontPx f 23) (frontPx f 25) / pixels_per_cm f * (13 / 10)

/-- Mirror of `knee_cm = thigh_cm * 0.7`. -/
def knee_cm (g : GeomOracle) (f : MediaPipeLandmarks) : ℚ :=
  thigh_cm g f * (7 / 10)

/-- Mirror of `calf_cm`: knee-to-ankle length times 0.9. -/
def calf_cm (g : GeomOracle) (f : MediaPipeLandmarks) : ℚ :=
  calculate_distance g (frontPx f 25) (frontPx f 27) / pixels_per_cm f * (9 / 10)

/-- Mirror of `ankle_cm = calf_cm * 0.65`. -/
def ankle_cm (g : GeomOracle) (f : MediaPipeLandmarks) : ℚ :=
  calf_cm g f * (65 / 100)

/-- Mirror of `neck_cm = shoulder_width_cm * 0.4`. -/
def neck_cm (g : GeomOracle) (f : MediaPipeLandmarks) : ℚ :=
  shoulder_width_cm g f * (4 / 10)

/-- Mirror of `underbust_cm = (chest_cm + waist_cm) / 2 * 0.95`. -/
def underbust_cm (g : GeomOracle) (f s : MediaPipeLandmarks) : ℚ :=
  (chest_cm g f s + waist_cm g f s) / 2 * (95 / 100)

/-- Mirror of `front_rise_cm = abs(waist_y - left_hip.y) / pixels_per_cm`. -/
def front_rise_cm (f : MediaPipeLandmarks) : ℚ :=
  |waist_y f - (frontPx f 23).y| / pixels_per_cm f

/-- Mirror of `back_rise_cm = front_rise_cm * 1.2`. -/
def back_rise_cm (f : MediaPipeLandmarks) : ℚ :=
  front_rise_cm f * (12 / 10)

/-- Mirror of `height_cm` entry: `height_pixels / pixels_per_cm`. -/
def height_cm_val (f : MediaPipeLandmarks) : ℚ :=
  height_pixels f / pixels_per_cm f

/-- Mirror of `calculate_measurements_from_landmarks`: the measurements dictionary as
returned at the end of the function, in its literal key order. -/
def calculate_measurements_from_landmarks (g : GeomOracle)
    (f s : MediaPipeLandmarks) : List (String × ℚ) :=
  [("height_cm", height_cm_val f),
   ("neck_cm", neck_cm g f),
   ("shoulder_cm", shoulder_width_cm g f),
   ("chest_cm", chest_cm g f s),
   ("underbust_cm", underbust_cm g f s),
   ("waist_natural_cm", waist_cm g f s),
   ("sleeve_cm", sleeve_cm g f),
   ("bicep_cm", bicep_cm g f),
   ("forearm_cm", forearm_cm g f),
   ("hip_low_cm", hip_cm g f s),
   ("thigh_cm", thigh_cm g f),
   ("knee_cm", knee_cm g f),
   ("calf_cm", calf_cm g f),
   ("ankle_cm", ankle_cm g f),
   ("front_rise_cm", front_rise_cm f),
   ("back_rise_cm", back_rise_cm f),
   ("inseam_cm", inseam_cm g f),
   ("outseam_cm", outseam_cm f)]

/-- Mirror of `estimate_accuracy`: visibility-tier confidence (0.95 / 0.90 / 0.85 /
0.80) from the average visibility over all landmarks and over the key
landmarks (shoulders, hips, knees, ankles). -/
def estimate_accuracy (f s : MediaPipeLandmarks) : ℚ :=
  let front_scores := f.landmarks.map (fun lm => lm.visibility)
  let side_scores := s.landmarks.map (fun lm => lm.visibility)
  let avg_visibility := (front_scores.sum + side_scores.sum) /
    ((front_scores.length : ℚ) + (side_scores.length : ℚ))
  let key_indices : List Nat := [11, 12, 23, 24, 25, 26, 27, 28]
  let key_front := (key_indices.map fun i => (getPt f.landmarks i).visibility).sum / 8
  let key_side := (key_indices.map fun i => (getPt s.landmarks i).visibility).sum / 8
  let key_visibility_avg := (key_front + key_side) / 2
  if avg_visibility > 85 / 100 ∧ key_visibility_avg > 9 / 10 then 95 / 100
  else if avg_visibility > 7 / 10 ∧ key_visibility_avg > 75 / 100 then 9 / 10
  else if avg_visibility > 1 / 2 ∧ key_visibility_avg > 6 / 10 then 85 / 100
  else 8 / 10

/-! ## Payload access and `normalize_and_validate` -/

/-- The key set of the payload (`set(input_dict.keys())`): first
occurrences, duplicates dropped. -/
def payloadKeys (p : Payload) : List String :=
  (p.map Prod.fst).eraseDups

/-- Landmark-valued lookup (`input_data.front_landmarks` etc.). -/
def getLandmarks (p : Payload) (k : String) : Option MediaPipeLandmarks :=
  match p.lookup k with
  | some (.lmk l) => some l
  | _ => none

/-- Numeric lookup (`getattr(input_data, field, None)` for a measurement). -/
def getNum (p : Payload) (k : String) : Option ℚ :=
  match p.lookup k with
  | some (.num q) => some q
  | _ => none

/-- String-valued lookup. -/
def getStr (p : Payload) (k : String) : Option String :=
  match p.lookup k with
  | some (.str s) => some s
  | _ => none

/-- Mirror of `input_data.session_id or ...`: Python truthiness, so an empty string
counts as absent. -/
def sessionTruthy (p : Payload) : Option String :=
  match getStr p "session_id" with
  | some s => if s = "" then none else some s
  | none => none

/-- Hint attached to every unknown-field error:
the comma-joined `sorted(CANONICAL_FIELDS)` wrapped in the question from the source. -/
def canonicalHint : String :=
  "Did you mean one of: " ++ String.intercalate ", " CANONICAL_FIELDS_SORTED ++ "?"

/-- The unknown-field scan of `normalize_and_validate`: one `ErrorDetail`
per supplied key outside `CANONICAL_FIELDS ∪ ALLOWED_META_FIELDS`. -/
def unknownFieldErrors (p : Payload) : List ErrorDetail :=
  (payloadKeys p).filterMap fun k =>
    if k ∈ CANONICAL_FIELDS ∨ k ∈ ALLOWED_META_FIELDS then none
    else some ⟨k, "Unknown field: " ++ k, some canonicalHint⟩

/-- The unit-conversion loop of the explicit branch: for each canonical
field present, emit `field_cm` converted by 2.54 when the unit is inches,
else passed through. -/
def explicitMeasurements (p : Payload) : List (String × ℚ) :=
  CANONICAL_FIELDS.filterMap fun fld =>
    match getNum p fld with
    | some v =>
      some (fld ++ "_cm", if getStr p "unit" = some "in" then inches_to_cm v else v)
    | none => none

/-- Pydantic construction `MeasurementNormalized(**normalized_kwargs)` for
the schema as declared: every one of the 18 `_cm` fields is required (no
default), and `confidence` carries `Field(ge=0, le=1)`; a missing key or a
violated bound raises `ValidationError`, modelled as `.error` naming the
offending fields in declaration order. -/
def mkNormalized (m : List (String × ℚ)) (source model_version : String)
    (confidence : ℚ) (accuracy_estimate : Option ℚ)
    (session_id front_photo_url side_photo_url
      front_landmarks_id side_landmarks_id : Option String) :
    Except (List String) MeasurementNormalized :=
  let missing := REQUIRED_CM_FIELDS.filter fun k => (m.lookup k).isNone
  if missing = [] ∧ 0 ≤ confidence ∧ confidence ≤ 1 then
    .ok
      { height_cm := (m.lookup "height_cm").getD 0
        neck_cm := (m.lookup "neck_cm").getD 0
        shoulder_cm := (m.lookup "shoulder_cm").getD 0
        chest_cm := (m.lookup "chest_cm").getD 0
        underbust_cm := (m.lookup "underbust_cm").getD 0
        waist_natural_cm := (m.lookup "waist_natural_cm").getD 0
        sleeve_cm := (m.lookup "sleeve_cm").getD 0
        bicep_cm := (m.lookup "bicep_cm").getD 0
        forearm_cm := (m.lookup "forearm_cm").getD 0
        hip_low_cm := (m.lookup "hip_low_cm").getD 0
        thigh_cm := (m.lookup "thigh_cm").getD 0
        knee_cm := (m.lookup "knee_cm").getD 0
        calf_cm := (m.lookup "calf_cm").getD 0
        ankle_cm := (m.lookup "ankle_cm").getD 0
        front_rise_cm := (m.lookup "front_rise_cm").getD 0
        back_rise_cm := (m.lookup "back_rise_cm").getD 0
        inseam_cm := (m.lookup "inseam_cm").getD 0
        outseam_cm := (m.lookup "outseam_cm").getD 0
        source := source
        model_version := model_version
        confidence := confidence
        accuracy_estimate := accuracy_estimate
        session_id := session_id
        front_photo_url := front_photo_url
        side_photo_url := side_photo_url
        front_landmarks_id := front_landmarks_id
        side_landmarks_id := side_landmarks_id }
  else
    .error (missing ++ if 0 ≤ confidence ∧ confidence ≤ 1 then [] else ["confidence"])

/-- Result of `normalize_and_validate`: the normalized record, the
`HTTPException(422)` with its `validation_error` envelope, or an uncaught
pydantic `ValidationError` from the output-record construction. -/
inductive NormalizeResult where
  | ok (n : MeasurementNormalized)
  | validationError (code : String) (message : String)
      (errors : List ErrorDetail) (session_id : Option String)
  | constructionError (missing : List String)
deriving DecidableEq

/-- Mirror of `normalize_and_validate` (with `raw_payload = None`, as the router calls
it): unknown-field scan when no landmark set is present, then either the
landmark-derived branch (both sets present) or the explicit-measurement
branch. The `uuid.uuid4()` draws are supplied by the `uuids` stream in call
order (landmark branch: front id, side id, then session id if needed;
explicit branch: session id if needed). -/
def normalize_and_validate (g : GeomOracle) (uuids : Nat → String)
    (p : Payload) : NormalizeResult :=
  let fl := getLandmarks p "front_landmarks"
  let sl := getLandmarks p "side_landmarks"
  let errors := if fl = none ∧ sl = none then unknownFieldErrors p else []
  if errors ≠ [] then
    .validationError "unknown_field" "Invalid measurement field names" errors
      (getStr p "session_id")
  else
    match fl, sl with
    | some f, some s =>
      let m := calculate_measurements_from_landmarks g f s
      let accuracy := estimate_accuracy f s
      let sid := (sessionTruthy p).getD (uuids 2)
      match mkNormalized m "mediapipe" "v1.0-mediapipe" accuracy (some accuracy)
          (some sid) (getStr p "front_photo_url") (getStr p "side_photo_url")
          (some (uuids 0)) (some (uuids 1)) with
      | .ok n => .ok n
      | .error missing => .constructionError missing
    | _, _ =>
      let m := explicitMeasurements p
      let sid := (sessionTruthy p).getD (uuids 0)
      match mkNormalized m "user_input" "v1.0-mediapipe" 1 (some 1)
          (some sid) (getStr p "front_photo_url") (getStr p "side_photo_url")
          none none with
      | .ok n => .ok n
      | .error missing => .constructionError missing

/-! ## `MeasurementInput` construction (`measure_schema.py`) -/

/-- Mirror of `_SKIP_VALIDATION_FIELDS` from `measure_schema.py`. -/
def SKIP_VALIDATION_FIELDS : List String :=
  ["unit", "session_id", "front_landmarks", "side_landmarks",
   "front_photo_url", "side_photo_url", "browser_info",
   "processing_location", "arkit_body_anchor", "arkit_depth_map",
   "device_id", "source_type", "platform"]

/-- The declared fields of `MeasurementInput` (the `"*"` validator runs on
these, not on `extra="allow"` keys): the 18 canonical measurements plus the
metadata fields, which coincide with `_SKIP_VALIDATION_FIELDS`. -/
def MEASUREMENT_INPUT_FIELDS : List String :=
  CANONICAL_FIELDS ++ SKIP_VALIDATION_FIELDS

/-- Mirror of `MeasurementInput.check_positive` (`mode="before"`): skip the metadata
fields; reject a numeric value `≤ 0` with `"{field} must be positive"`;
pass everything else through. -/
def check_positive (field_name : String) (value : RawValue) :
    Except String RawValue :=
  if field_name ∈ SKIP_VALIDATION_FIELDS then .ok value
  else
    match value with
    | .num q => if q ≤ 0 then .error (field_name ++ " must be positive") else .ok value
    | v => .ok v

/-- The validation errors pydantic collects while constructing a
`MeasurementInput` from a payload: `check_positive` runs once per supplied
declared field. -/
def measurementInputErrors (p : Payload) : List String :=
  p.filterMap fun kv =>
    if kv.1 ∈ MEASUREMENT_INPUT_FIELDS then
      match check_positive kv.1 kv.2 with
      | .error e => some e
      | .ok _ => none
    else none

/-- Pydantic construction `MeasurementInput(**payload)`: succeeds with the
payload (extras kept by `extra="allow"`) unless some validator raised. -/
def constructMeasurementInput (p : Payload) : Except (List String) Payload :=
  if measurementInputErrors p = [] then .ok p
  else .error (measurementInputErrors p)

/-! ## Result projections and concrete fixtures -/

/-- Whether a normalization result is a success. -/
def NormalizeResult.isOk : NormalizeResult → Bool
  | .ok _ => true
  | _ => false

/-- The `accuracy_estimate` of a successful result. -/
def NormalizeResult.accuracyOf : NormalizeResult → Option ℚ
  | .ok n => n.accuracy_estimate
  | _ => none

/-- The `confidence` of a successful result. -/
def NormalizeResult.confidenceOf : NormalizeResult → Option ℚ
  | .ok n => some n.confidence
  | _ => none

/-- Erase the fields populated from fresh `uuid.uuid4()` draws. -/
def NormalizeResult.stripFresh : NormalizeResult → NormalizeResult
  | .ok n => .ok { n with front_landmarks_id := none, side_landmarks_id := none,
                          session_id := none }
  | r => r

/-- A successful result echoes the supplied session id. -/
def NormalizeResult.sessionEcho (r : NormalizeResult) (sid : String) : Prop :=
  match r with
  | .ok n => n.session_id = some sid
  | _ => True

/-- The supplied keys outside the canonical and metadata sets. -/
def offendingKeys (p : Payload) : List String :=
  (payloadKeys p).filter fun k =>
    ¬(k ∈ CANONICAL_FIELDS ∨ k ∈ ALLOWED_META_FIELDS)

/-- A concrete oracle for evaluating the geometry at inputs where every
distance argument is zero. -/
def gZero : GeomOracle := ⟨fun _ => 0, 355 / 113⟩

/-- A constant uuid stream. -/
def uuidsA : Nat → String := fun _ => "uuid-a"

/-- One MediaPipe landmark at the image centre with visibility 0.9. -/
def lmPoint : Landmark := ⟨1 / 2, 1 / 2, 0, 9 / 10⟩

/-- A 33-landmark set (the golden MediaPipe payload of the test suite). -/
def lmSet : MediaPipeLandmarks :=
  ⟨List.replicate 33 lmPoint, "2025-10-26T15:00:00Z", 1920, 1080⟩

/-- Landmark-derived request with a session id. -/
def landmarkPayload : Payload :=
  [("front_landmarks", .lmk lmSet), ("side_landmarks", .lmk lmSet),
   ("session_id", .str "s-1")]

/-- Landmark-derived request that also carries a misspelled field. -/
def landmarkExtraPayload : Payload :=
  [("front_landmarks", .lmk lmSet), ("side_landmarks", .lmk lmSet),
   ("waist_circ", .num 32)]

/-- The spec scenario `{waist_natural: 32, unit: "in"}`. -/
def waistPayload : Payload :=
  [("waist_natural", .num 32), ("unit", .str "in")]

/-- The spec scenario `{waist_circ: 32, unit: "in"}` (misspelled field). -/
def waistCircPayload : Payload :=
  [("waist_circ", .num 32), ("unit", .str "in")]

/-- Golden explicit payload of the test suite (three measurements in inches). -/
def goldenPayload : Payload :=
  [("waist_natural", .num 32), ("hip_low", .num 40), ("inseam", .num 30),
   ("unit", .str "in"), ("session_id", .str "test-session-1")]

/-- An explicit payload supplying all 18 canonical fields (value 1 cm). -/
def fullExplicitPayload : Payload :=
  CANONICAL_FIELDS.map fun fld => (fld, .num 1)

/-! ## Shared evaluation lemmas -/

/-- Mirror of `estimate_accuracy` only ever returns one of the four tier values, all
inside `[0, 1]`. -/
lemma estimate_accuracy_bounds (f s : MediaPipeLandmarks) :
    0 ≤ estimate_accuracy f s ∧ estimate_accuracy f s ≤ 1 := by
  constructor <;>
  · simp only [estimate_accuracy]
    split_ifs <;> norm_num

/-- Constructing the output record from the landmark-derived measurement
dictionary always succeeds (all 18 keys are present), provided the
confidence bound holds. -/
lemma mkNormalized_calc (g : GeomOracle) (f s : MediaPipeLandmarks)
    (src mv : String) (c : ℚ) (acc : Option ℚ)
    (sid fp sp fid sid2 : Option String) (h0 : 0 ≤ c) (h1 : c ≤ 1) :
    mkNormalized (calculate_measurements_from_landmarks g f s) src mv c acc
        sid fp sp fid sid2 =
      .ok { height_cm := height_cm_val f
            neck_cm := neck_cm g f
            shoulder_cm := shoulder_width_cm g f
            chest_cm := chest_cm g f s
            underbust_cm := underbust_cm g f s
            waist_natural_cm := waist_cm g f s
            sleeve_cm := sleeve_cm g f
            bicep_cm := bicep_cm g f
            forearm_cm := forearm_cm g f
            hip_low_cm := hip_cm g f s
            thigh_cm := thigh_cm g f
            knee_cm := knee_cm g f
            calf_cm := calf_cm g f
            ankle_cm := ankle_cm g f
            front_rise_cm := front_rise_cm f
            back_rise_cm := back_rise_cm f
            inseam_cm := inseam_cm g f
            outseam_cm := outseam_cm f
            source := src
            model_version := mv
            confidence := c
            accuracy_estimate := acc
            session_id := sid
            front_photo_url := fp
            side_photo_url := sp
            front_landmarks_id := fid
            side_landmarks_id := sid2 } := by
  simp [mkNormalized, calculate_measurements_from_landmarks,
    REQUIRED_CM_FIELDS, List.lookup, h0, h1]

/-- Closed form of `normalize_and_validate` on a payload carrying both
landmark sets. -/
lemma normalize_landmark_eq (g : GeomOracle) (uuids : Nat → String)
    (p : Payload) (f s : MediaPipeLandmarks)
    (hf : getLandmarks p "front_landmarks" = some f)
    (hs : getLandmarks p "side_landmarks" = some s) :
    normalize_and_validate g uuids p =
      .ok { height_cm := height_cm_val f
            neck_cm := neck_cm g f
            shoulder_cm := shoulder_width_cm g f
            chest_cm := chest_cm g f s
            underbust_cm := underbust_cm g f s
            waist_natural_cm := waist_cm g f s
            sleeve_cm := sleeve_cm g f
            bicep_cm := bicep_cm g f
            forearm_cm := forearm_cm g f
            hip_low_cm := hip_cm g f s
            thigh_cm := thigh_cm g f
            knee_cm := knee_cm g f
            calf_cm := calf_cm g f
            ankle_cm := ankle_cm g f
            front_rise_cm := front_rise_cm f
            back_rise_cm := back_rise_cm f
            inseam_cm := inseam_cm g f
            outseam_cm := outseam_cm f
            source := "mediapipe"
            model_version := "v1.0-mediapipe"
            confidence := estimate_accuracy f s
            accuracy_estimate := some (estimate_accuracy f s)
            session_id := some ((sessionTruthy p).getD (uuids 2))
            front_photo_url := getStr p "front_photo_url"
            side_photo_url := getStr p "side_photo_url"
            front_landmarks_id := some (uuids 0)
            side_landmarks_id := some (uuids 1) } := by
  obtain ⟨h0, h1⟩ := estimate_accuracy_bounds f s
  simp only [normalize_and_validate, hf, hs]
  norm_num
  rw [mkNormalized_calc g f s _ _ _ _ _ _ _ _ _ h0 h1]
  simp

/-! ## Sign facts about the geometry -/

lemma calculate_distance_nonneg (g : GeomOracle) (hsq : ∀ x, 0 ≤ g.sqrtQ x)
    (p1 p2 : Landmark) : 0 ≤ calculate_distance g p1 p2 :=
  hsq _

lemma pixels_per_cm_pos (f : MediaPipeLandmarks) : 0 < pixels_per_cm f := by
  unfold pixels_per_cm
  split_ifs with h
  · exact div_pos h (by norm_num [REFERENCE_HEIGHT_CM])
  · norm_num

lemma height_cm_val_nonneg (f : MediaPipeLandmarks) : 0 ≤ height_cm_val f := by
  unfold height_cm_val height_pixels
  exact div_nonneg (abs_nonneg _) (pixels_per_cm_pos f).le

lemma shoulder_width_cm_nonneg (g : GeomOracle) (hsq : ∀ x, 0 ≤ g.sqrtQ x)
    (f : MediaPipeLandmarks) : 0 ≤ shoulder_width_cm g f := by
  unfold shoulder_width_cm
  exact div_nonneg (hsq _) (pixels_per_cm_pos f).le

lemma neck_cm_nonneg (g : GeomOracle) (hsq : ∀ x, 0 ≤ g.sqrtQ x)
    (f : MediaPipeLandmarks) : 0 ≤ neck_cm g f := by
  unfold neck_cm
  exact mul_nonneg (shoulder_width_cm_nonneg g hsq f) (by norm_num)

lemma chest_width_cm_nonneg (g : GeomOracle) (hsq : ∀ x, 0 ≤ g.sqrtQ x)
    (f : MediaPipeLandmarks) : 0 ≤ chest_width_cm g f := by
  unfold chest_width_cm
  exact mul_nonneg (shoulder_width_cm_nonneg g hsq f) (by norm_num)

lemma chest_depth_cm_nonneg (g : GeomOracle) (hsq : ∀ x, 0 ≤ g.sqrtQ x)
    (f s : MediaPipeLandmarks) : 0 ≤ chest_depth_cm g f s := by
  unfold chest_depth_cm
  exact le_max_of_le_right
    (mul_nonneg (chest_width_cm_nonneg g hsq f) (by norm_num))

lemma chest_cm_nonneg (g : GeomOracle) (hsq : ∀ x, 0 ≤ g.sqrtQ x)
    (hpi : 0 ≤ g.piQ) (f s : MediaPipeLandmarks) : 0 ≤ chest_cm g f s := by
  unfold chest_cm
  exact div_nonneg
    (mul_nonneg hpi
      (add_nonneg (chest_width_cm_nonneg g hsq f) (chest_depth_cm_nonneg g hsq f s)))
    (by norm_num)

lemma waist_width_cm_nonneg (g : GeomOracle) (hsq : ∀ x, 0 ≤ g.sqrtQ x)
    (f : MediaPipeLandmarks) : 0 ≤ waist_width_cm g f := by
  unfold waist_width_cm
  exact div_nonneg (mul_nonneg (hsq _) (by norm_num)) (pixels_per_cm_pos f).le

lemma waist_depth_cm_nonneg (g : GeomOracle) (hsq : ∀ x, 0 ≤ g.sqrtQ x)
    (f s : MediaPipeLandmarks) : 0 ≤ waist_depth_cm g f s := by
  simp only [waist_depth_cm]
  split_ifs with h
  · exact div_nonneg (mul_nonneg (abs_nonneg _) (by norm_num)) (pixels_per_cm_pos f).le
  · exact mul_nonneg (waist_width_cm_nonneg g hsq f) (by norm_num)

lemma waist_cm_nonneg (g : GeomOracle) (hsq : ∀ x, 0 ≤ g.sqrtQ x)
    (hpi : 0 ≤ g.piQ) (f s : MediaPipeLandmarks) : 0 ≤ waist_cm g f s := by
  unfold waist_cm
  exact div_nonneg
    (mul_nonneg hpi
      (add_nonneg (waist_width_cm_nonneg g hsq f) (waist_depth_cm_nonneg g hsq f s)))
    (by norm_num)

lemma hip_width_cm_nonneg (g : GeomOracle) (hsq : ∀ x, 0 ≤ g.sqrtQ x)
    (f : MediaPipeLandmarks) : 0 ≤ hip_width_cm g f := by
  unfold hip_width_cm
  exact div_nonneg (hsq _) (pixels_per_cm_pos f).le

lemma hip_depth_cm_nonneg (g : GeomOracle) (hsq : ∀ x, 0 ≤ g.sqrtQ x)
    (f s : MediaPipeLandmarks) : 0 ≤ hip_depth_cm g f s := by
  simp only [hip_depth_cm]
  split_ifs with h
  · exact div_nonneg (abs_nonneg _) (pixels_per_cm_pos f).le
  · exact mul_nonneg (hip_width_cm_nonneg g hsq f) (by norm_num)

lemma hip_cm_nonneg (g : GeomOracle) (hsq : ∀ x, 0 ≤ g.sqrtQ x)
    (hpi : 0 ≤ g.piQ) (f s : MediaPipeLandmarks) : 0 ≤ hip_cm g f s := by
  unfold hip_cm
  exact div_nonneg
    (mul_nonneg hpi
      (add_nonneg (hip_width_cm_nonneg g hsq f) (hip_depth_cm_nonneg g hsq f s)))
    (by norm_num)

lemma underbust_cm_nonneg (g : GeomOracle) (hsq : ∀ x, 0 ≤ g.sqrtQ x)
    (hpi : 0 ≤ g.piQ) (f s : MediaPipeLandmarks) : 0 ≤ underbust_cm g f s := by
  unfold underbust_cm
  exact mul_nonneg
    (div_nonneg
      (add_nonneg (chest_cm_nonneg g hsq hpi f s) (waist_cm_nonneg g hsq hpi f s))
      (by norm_num))
    (by norm_num)

lemma inseam_cm_nonneg (g : GeomOracle) (hsq : ∀ x, 0 ≤ g.sqrtQ x)
    (f : MediaPipeLandmarks) : 0 ≤ inseam_cm g f := by
  unfold inseam_cm
  exact div_nonneg (hsq _) (pixels_per_cm_pos f).le

lemma outseam_cm_nonneg (f : MediaPipeLandmarks) : 0 ≤ outseam_cm f := by
  unfold outseam_cm
  exact div_nonneg (abs_nonneg _) (pixels_per_cm_pos f).le

lemma sleeve_cm_nonneg (g : GeomOracle) (hsq : ∀ x, 0 ≤ g.sqrtQ x)
    (f : MediaPipeLandmarks) : 0 ≤ sleeve_cm g f := by
  unfold sleeve_cm
  exact div_nonneg (hsq _) (pixels_per_cm_pos f).le

lemma bicep_cm_nonneg (g : GeomOracle) (hsq : ∀ x, 0 ≤ g.sqrtQ x)
    (f : MediaPipeLandmarks) : 0 ≤ bicep_cm g f := by
  unfold bicep_cm
  exact mul_nonneg (div_nonneg (hsq _) (pixels_per_cm_pos f).le) (by norm_num)

lemma forearm_cm_nonneg (g : GeomOracle) (hsq : ∀ x, 0 ≤ g.sqrtQ x)
    (f : MediaPipeLandmarks) : 0 ≤ forearm_cm g f := by
  unfold forearm_cm
  exact mul_nonneg (div_nonneg (hsq _) (pixels_per_cm_pos f).le) (by norm_num)

lemma thigh_cm_nonneg (g : GeomOracle) (hsq : ∀ x, 0 ≤ g.sqrtQ x)
    (f : MediaPipeLandmarks) : 0 ≤ thigh_cm g f := by
  unfold thigh_cm
  exact mul_nonneg (div_nonneg (hsq _) (pixels_per_cm_pos f).le) (by norm_num)

lemma knee_cm_nonneg (g : GeomOracle) (hsq : ∀ x, 0 ≤ g.sqrtQ x)
    (f : MediaPipeLandmarks) : 0 ≤ knee_cm g f := by
  unfold knee_cm
  exact mul_nonneg (thigh_cm_nonneg g hsq f) (by norm_num)

lemma calf_cm_nonneg (g : GeomOracle) (hsq : ∀ x, 0 ≤ g.sqrtQ x)
    (f : MediaPipeLandmarks) : 0 ≤ calf_cm g f := by
  unfold calf_cm
  exact mul_nonneg (div_nonneg (hsq _) (pixels_per_cm_pos f).le) (by norm_num)

lemma ankle_cm_nonneg (g : GeomOracle) (hsq : ∀ x, 0 ≤ g.sqrtQ x)
    (f : MediaPipeLandmarks) : 0 ≤ ankle_cm g f := by
  unfold ankle_cm
  exact mul_nonneg (calf_cm_nonneg g hsq f) (by norm_num)

lemma front_rise_cm_nonneg (f : MediaPipeLandmarks) : 0 ≤ front_rise_cm f := by
  unfold front_rise_cm
  exact div_nonneg (abs_nonneg _) (pixels_per_cm_pos f).le

lemma back_rise_cm_nonneg (f : MediaPipeLandmarks) : 0 ≤ back_rise_cm f := by
  unfold back_rise_cm
  exact mul_nonneg (front_rise_cm_nonneg f) (by norm_num)

/-- Claim C8. For every landmark-derived input (both a front and a side
landmark set present, each with the 33 MediaPipe landmarks, and the
square-root and pi oracles behaving as nonnegative functions as the real
ones do), the normalized output is produced successfully with all 18
canonical centimeter fields populated, and every one of those values
is ≥ 0. -/
theorem landmark_output_populated_and_nonneg (g : GeomOracle)
    (uuids : Nat → String) (p : Payload) (f s : MediaPipeLandmarks)
    (hf : getLandmarks p "front_landmarks" = some f)
    (hs : getLandmarks p "side_landmarks" = some s)
    (hlenf : f.landmarks.length = 33) (hlens : s.landmarks.length = 33)
    (hsq : ∀ x, 0 ≤ g.sqrtQ x) (hpi : 0 ≤ g.piQ) :
    ∃ n, normalize_and_validate g uuids p = .ok n ∧
      0 ≤ n.height_cm ∧ 0 ≤ n.neck_cm ∧ 0 ≤ n.shoulder_cm ∧ 0 ≤ n.chest_cm ∧
      0 ≤ n.underbust_cm ∧ 0 ≤ n.waist_natural_cm ∧ 0 ≤ n.sleeve_cm ∧
      0 ≤ n.bicep_cm ∧ 0 ≤ n.forearm_cm ∧ 0 ≤ n.hip_low_cm ∧
      0 ≤ n.thigh_cm ∧ 0 ≤ n.knee_cm ∧ 0 ≤ n.calf_cm ∧ 0 ≤ n.ankle_cm ∧
      0 ≤ n.front_rise_cm ∧ 0 ≤ n.back_rise_cm ∧ 0 ≤ n.inseam_cm ∧
      0 ≤ n.outseam_cm :=
  ⟨_, normalize_landmark_eq g uuids p f s hf hs,
    height_cm_val_nonneg f, neck_cm_nonneg g hsq f,
    shoulder_width_cm_nonneg g hsq f, chest_cm_nonneg g hsq hpi f s,
    underbust_cm_nonneg g hsq hpi f s, waist_cm_nonneg g hsq hpi f s,
    sleeve_cm_nonneg g hsq f, bicep_cm_nonneg g hsq f,
    forearm_cm_nonneg g hsq f, hip_cm_nonneg g hsq hpi f s,
    thigh_cm_nonneg g hsq f, knee_cm_nonneg g hsq f, calf_cm_nonneg g hsq f,
    ankle_cm_nonneg g hsq f, front_rise_cm_nonneg f, back_rise_cm_nonneg f,
    inseam_cm_nonneg g hsq f, outseam_cm_nonneg f⟩

/-- Witness for C8 at the golden MediaPipe fixture. -/
theorem landmark_output_populated_and_nonneg_witness :
    ∃ n, normalize_and_validate gZero uuidsA landmarkPayload = .ok n ∧
      0 ≤ n.height_cm ∧ 0 ≤ n.neck_cm ∧ 0 ≤ n.shoulder_cm ∧ 0 ≤ n.chest_cm ∧
      0 ≤ n.underbust_cm ∧ 0 ≤ n.waist_natural_cm ∧ 0 ≤ n.sleeve_cm ∧
      0 ≤ n.bicep_cm ∧ 0 ≤ n.forearm_cm ∧ 0 ≤ n.hip_low_cm ∧
      0 ≤ n.thigh_cm ∧ 0 ≤ n.knee_cm ∧ 0 ≤ n.calf_cm ∧ 0 ≤ n.ankle_cm ∧
      0 ≤ n.front_rise_cm ∧ 0 ≤ n.back_rise_cm ∧ 0 ≤ n.inseam_cm ∧
      0 ≤ n.outseam_cm :=
  landmark_output_populated_and_nonneg gZero uuidsA landmarkPayload
    lmSet lmSet rfl rfl rfl rfl (fun _ => le_refl 0) (by norm_num [gZero])

/-! ## Determinism lemmas -/

/-- The branch wrapping `mkNormalized` into a `NormalizeResult` gives
`stripFresh`-equal results whatever the session and landmark ids are. -/
lemma stripFresh_mk_match (m : List (String × ℚ)) (src mv : String) (c : ℚ)
    (acc : Option ℚ) (sid sid' fp sp a b a' b' : Option String) :
    (match mkNormalized m src mv c acc sid fp sp a b with
     | .ok n => NormalizeResult.ok n
     | .error e => NormalizeResult.constructionError e).stripFresh =
    (match mkNormalized m src mv c acc sid' fp sp a' b' with
     | .ok n => NormalizeResult.ok n
     | .error e => NormalizeResult.constructionError e).stripFresh := by
  simp only [mkNormalized]
  by_cases h : (REQUIRED_CM_FIELDS.filter fun k => (m.lookup k).isNone) = [] ∧
      0 ≤ c ∧ c ≤ 1
  · rw [if_pos h, if_pos h]
    rfl
  · rw [if_neg h, if_neg h]

/-- The branch wrapping `mkNormalized` echoes a supplied session id on
success. -/
lemma sessionEcho_mk_match (m : List (String × ℚ)) (src mv : String) (c : ℚ)
    (acc : Option ℚ) (sid : String) (fp sp a b : Option String) :
    (match mkNormalized m src mv c acc (some sid) fp sp a b with
     | .ok n => NormalizeResult.ok n
     | .error e => NormalizeResult.constructionError e).sessionEcho sid := by
  simp only [mkNormalized]
  by_cases h : (REQUIRED_CM_FIELDS.filter fun k => (m.lookup k).isNone) = [] ∧
      0 ≤ c ∧ c ≤ 1
  · rw [if_pos h]
    simp [NormalizeResult.sessionEcho]
  · rw [if_neg h]
    simp [NormalizeResult.sessionEcho]

/-- Claim C9 (amended). Normalization is deterministic on landmark input up to
the freshly generated identifiers: across two invocations with different
`uuid.uuid4()` draws, the outputs agree on every field except the
`front_landmarks_id` / `side_landmarks_id` (and the session id when the
input did not supply one); a supplied session id is echoed unchanged. -/
theorem normalize_deterministic_up_to_fresh_ids (g : GeomOracle)
    (u1 u2 : Nat → String) (p : Payload) :
    (normalize_and_validate g u1 p).stripFresh =
      (normalize_and_validate g u2 p).stripFresh ∧
    ∀ sid, sessionTruthy p = some sid →
      (normalize_and_validate g u1 p).sessionEcho sid := by
  constructor
  · simp only [normalize_and_validate]
    rcases hf : getLandmarks p "front_landmarks" with _ | f <;>
      rcases hs : getLandmarks p "side_landmarks" with _ | s <;>
      simp only [reduceCtorEq, false_and, and_false, and_true, true_and,
        if_false, ite_false, ne_eq] <;>
      first
        | rfl
        | exact stripFresh_mk_match _ _ _ _ _ _ _ _ _ _ _ _ _
        | (by_cases he : unknownFieldErrors p = [] <;>
            simp only [he, if_true, if_false, ite_not, not_true_eq_false,
              not_false_eq_true, ite_true] <;>
            first
              | rfl
              | exact stripFresh_mk_match _ _ _ _ _ _ _ _ _ _ _ _ _)
  · intro sid h
    simp only [normalize_and_validate]
    rcases hf : getLandmarks p "front_landmarks" with _ | f <;>
      rcases hs : getLandmarks p "side_landmarks" with _ | s <;>
      simp only [reduceCtorEq, false_and, and_false, and_true, true_and,
        if_false, ite_false, ne_eq, h, Option.getD_some] <;>
      first
        | exact sessionEcho_mk_match _ _ _ _ _ _ _ _ _ _
        | (by_cases he : unknownFieldErrors p = [] <;>
            simp only [he, if_true, if_false, ite_not, not_true_eq_false,
              not_false_eq_true, ite_true] <;>
            first
              | exact sessionEcho_mk_match _ _ _ _ _ _ _ _ _ _
              | exact trivial)

/-- Witness for C9 at the golden landmark fixture with two distinct uuid
streams. -/
theorem normalize_deterministic_up_to_fresh_ids_witness :
    (normalize_and_validate gZero (fun _ => "uuid-a")
        landmarkPayload).stripFresh =
      (normalize_and_validate gZero (fun _ => "uuid-b")
        landmarkPayload).stripFresh ∧
    (normalize_and_validate gZero (fun _ => "uuid-a")
        landmarkPayload).sessionEcho "s-1" :=
  ⟨(normalize_deterministic_up_to_fresh_ids gZero (fun _ => "uuid-a")
      (fun _ => "uuid-b") landmarkPayload).1,
   (normalize_deterministic_up_to_fresh_ids gZero (fun _ => "uuid-a")
      (fun _ => "uuid-b") landmarkPayload).2 "s-1" rfl⟩

/-- Claim C9 counterexample. Two invocations of `normalize_and_validate` on
the identical landmark-derived input but with distinct fresh uuid draws do
not produce identical outputs (the stored-landmark identifiers differ), so
the claim that all fields are equal across two runs is false. -/
theorem normalize_not_fully_deterministic :
    normalize_and_validate gZero (fun _ => "uuid-a") landmarkPayload ≠
      normalize_and_validate gZero (fun _ => "uuid-b") landmarkPayload := by
  rw [normalize_landmark_eq gZero (fun _ => "uuid-a") landmarkPayload
        lmSet lmSet rfl rfl,
      normalize_landmark_eq gZero (fun _ => "uuid-b") landmarkPayload
        lmSet lmSet rfl rfl]
  intro h
  simp only [NormalizeResult.ok.injEq, MeasurementNormalized.mk.injEq] at h
  exact absurd h.2.2.2.2.2.2.2.2.2.2.2.2.2.2.2.2.2.2.2.2.2.2.2.2.2.1
    (by simp)

/-! ## Unknown-field validation (C1) -/

/-- Filtering-out by a predicate and mapping the rest, as one `filterMap`. -/
lemma filterMap_ite_eq_map_filter {α β : Type} (P : α → Prop)
    [DecidablePred P] (g : α → β) (l : List α) :
    (l.filterMap fun a => if P a then none else some (g a)) =
      (l.filter fun a => ¬P a).map g := by
  induction l with
  | nil => rfl
  | cons a t ih =>
    rw [List.filterMap_cons, List.filter_cons]
    by_cases h : P a
    · simp [h, ih]
    · simp [h, ih]

/-- Mirror of `unknownFieldErrors` is exactly one detail per offending key. -/
lemma unknownFieldErrors_eq (p : Payload) :
    unknownFieldErrors p = (offendingKeys p).map
      (fun k => ⟨k, "Unknown field: " ++ k, some canonicalHint⟩) := by
  unfold unknownFieldErrors offendingKeys
  exact filterMap_ite_eq_map_filter _ _ _

/-- Claim C1 (amended). For every explicit-mode input (no landmark set
present) whose key set contains names outside the 18 canonical measurement
names plus the allowed metadata fields, `normalize_and_validate` fails with
a single `validation_error` envelope with code `unknown_field` containing
one `ErrorDetail` per offending field, each with the canonical-fields hint,
and never returns a partial success; in particular the misspelled input
`{waist_circ: 32, unit: "in"}` yields exactly one `ErrorDetail` whose field
is `waist_circ`. (When both landmark sets are present the scan is skipped —
see the counterexample.) -/
theorem unknown_fields_rejected :
    (∀ (g : GeomOracle) (uuids : Nat → String) (p : Payload),
        getLandmarks p "front_landmarks" = none →
        getLandmarks p "side_landmarks" = none →
        offendingKeys p ≠ [] →
        normalize_and_validate g uuids p =
          .validationError "unknown_field" "Invalid measurement field names"
            ((offendingKeys p).map fun k =>
              ⟨k, "Unknown field: " ++ k, some canonicalHint⟩)
            (getStr p "session_id")) ∧
    normalize_and_validate gZero uuidsA waistCircPayload =
      .validationError "unknown_field" "Invalid measurement field names"
        [⟨"waist_circ", "Unknown field: waist_circ", some canonicalHint⟩]
        none := by
  have huniv : ∀ (g : GeomOracle) (uuids : Nat → String) (p : Payload),
      getLandmarks p "front_landmarks" = none →
      getLandmarks p "side_landmarks" = none →
      offendingKeys p ≠ [] →
      normalize_and_validate g uuids p =
        .validationError "unknown_field" "Invalid measurement field names"
          ((offendingKeys p).map fun k =>
            ⟨k, "Unknown field: " ++ k, some canonicalHint⟩)
          (getStr p "session_id") := by
    intro g uuids p hf hs hoff
    have he : unknownFieldErrors p ≠ [] := by
      rw [unknownFieldErrors_eq]
      simpa using hoff
    simp only [normalize_and_validate, hf, hs, and_self, if_true, ite_true,
      ne_eq, he, not_false_eq_true]
    rw [unknownFieldErrors_eq]
  exact ⟨huniv, huniv gZero uuidsA waistCircPayload rfl rfl (by decide)⟩

/-- Witness for C1 at a one-key unknown-field payload. -/
theorem unknown_fields_rejected_witness :
    normalize_and_validate gZero uuidsA [("foo", RawValue.num 1)] =
      .validationError "unknown_field" "Invalid measurement field names"
        ((offendingKeys [("foo", RawValue.num 1)]).map fun k =>
          ⟨k, "Unknown field: " ++ k, some canonicalHint⟩)
        (getStr [("foo", RawValue.num 1)] "session_id") :=
  unknown_fields_rejected.1 gZero uuidsA [("foo", RawValue.num 1)] rfl rfl
    (by decide)

/-- Claim C1 counterexample. An input whose key set contains the unknown
field `waist_circ` but which also carries both landmark sets is *not*
rejected: the unknown-field scan is skipped and normalization succeeds, so
the claim quantified over *every* input is false. -/
theorem unknown_field_accepted_with_landmarks :
    ("waist_circ" ∉ CANONICAL_FIELDS ∧ "waist_circ" ∉ ALLOWED_META_FIELDS) ∧
    (normalize_and_validate gZero uuidsA landmarkExtraPayload).isOk = true := by
  refine ⟨by decide, ?_⟩
  rw [normalize_landmark_eq gZero uuidsA landmarkExtraPayload lmSet lmSet
    rfl rfl]
  rfl

/-! ## Explicit-measurement branch (C3, C4, C5) -/

/-- Claim C3 (code evaluation at the failing input). The unit-conversion step
itself is exact — the supplied `waist_natural: 32` in inches becomes
`waist_natural_cm = 32 × 2.54 = 81.28` — but the output claimed by the scenario
is never produced: `MeasurementNormalized` declares all 18 `_cm` fields
without defaults, so constructing the output record from this partial
request raises a pydantic `ValidationError` naming the 17 missing fields. -/
theorem waist_scenario_conversion_exact_but_output_fails :
    explicitMeasurements waistPayload =
      [("waist_natural_cm", inches_to_cm 32)] ∧
    inches_to_cm 32 = 2032 / 25 ∧
    normalize_and_validate gZero uuidsA waistPayload =
      .constructionError
        ["height_cm", "neck_cm", "shoulder_cm", "chest_cm", "underbust_cm",
         "sleeve_cm", "bicep_cm", "forearm_cm", "hip_low_cm", "thigh_cm",
         "knee_cm", "calf_cm", "ankle_cm", "front_rise_cm", "back_rise_cm",
         "inseam_cm", "outseam_cm"] :=
  ⟨rfl, by norm_num [inches_to_cm], by decide⟩

/-- Claim C4 (code evaluation at the failing input). A partial explicit
request (the golden test payload of the repository) does not succeed with
absent fields resolved to 0: the output-record construction fails on the 15
canonical fields that were not supplied. -/
theorem partial_explicit_input_fails_construction :
    normalize_and_validate gZero uuidsA goldenPayload =
      .constructionError
        ["height_cm", "neck_cm", "shoulder_cm", "chest_cm", "underbust_cm",
         "sleeve_cm", "bicep_cm", "forearm_cm", "thigh_cm", "knee_cm",
         "calf_cm", "ankle_cm", "front_rise_cm", "back_rise_cm",
         "outseam_cm"] := by
  decide

/-- Claim C5 (code evaluation). `accuracy_estimate` is assigned the
confidence itself, not the error fraction `1 − confidence`: in
explicit-measurement mode (all 18 fields supplied so construction succeeds)
both `confidence` and `accuracy_estimate` are 1.0 — not the claimed 0.0 —
and in landmark mode `accuracy_estimate` equals the visibility-tier
confidence itself. -/
theorem accuracy_estimate_equals_confidence :
    (normalize_and_validate gZero uuidsA fullExplicitPayload).accuracyOf =
      some 1 ∧
    (normalize_and_validate gZero uuidsA fullExplicitPayload).confidenceOf =
      some 1 ∧
    some (1 : ℚ) ≠ some (1 - (1 : ℚ)) ∧
    ∀ (g : GeomOracle) (uuids : Nat → String) (p : Payload)
      (f s : MediaPipeLandmarks),
      getLandmarks p "front_landmarks" = some f →
      getLandmarks p "side_landmarks" = some s →
      (normalize_and_validate g uuids p).accuracyOf =
        some (estimate_accuracy f s) ∧
      (normalize_and_validate g uuids p).confidenceOf =
        some (estimate_accuracy f s) := by
  refine ⟨by decide, by decide, by norm_num, ?_⟩
  intro g uuids p f s hf hs
  rw [normalize_landmark_eq g uuids p f s hf hs]
  exact ⟨rfl, rfl⟩

/-- Witness for the landmark clause of C5 at the golden fixture. -/
theorem accuracy_estimate_equals_confidence_witness :
    (normalize_and_validate gZero uuidsA landmarkPayload).accuracyOf =
      some (estimate_accuracy lmSet lmSet) ∧
    (normalize_and_validate gZero uuidsA landmarkPayload).confidenceOf =
      some (estimate_accuracy lmSet lmSet) :=
  accuracy_estimate_equals_confidence.2.2.2 gZero uuidsA landmarkPayload
    lmSet lmSet rfl rfl

/-! ## Input positivity validation (C10) -/

/-- Claim C10. Every canonical measurement field supplied with a numeric
value ≤ 0 makes `MeasurementInput` construction fail with a validation
error stating the field must be positive, while the metadata fields are
exempt from the positivity check. -/
theorem nonpositive_measurement_rejected (p : Payload) (fld : String)
    (q : ℚ) (hf : fld ∈ CANONICAL_FIELDS) (hq : q ≤ 0)
    (hmem : (fld, RawValue.num q) ∈ p) :
    (fld ++ " must be positive") ∈ measurementInputErrors p ∧
    constructMeasurementInput p = .error (measurementInputErrors p) ∧
    ∀ (m : String) (v : RawValue), m ∈ SKIP_VALIDATION_FIELDS →
      check_positive m v = .ok v := by
  have hskip : fld ∉ SKIP_VALIDATION_FIELDS := by
    have hd : ∀ x ∈ CANONICAL_FIELDS, x ∉ SKIP_VALIDATION_FIELDS := by decide
    exact hd fld hf
  have hin : fld ∈ MEASUREMENT_INPUT_FIELDS :=
    List.mem_append_left _ hf
  have hcp : check_positive fld (RawValue.num q) =
      .error (fld ++ " must be positive") := by
    unfold check_positive
    rw [if_neg hskip]
    simp [hq]
  have hmemErr : (fld ++ " must be positive") ∈ measurementInputErrors p := by
    unfold measurementInputErrors
    exact List.mem_filterMap.2 ⟨(fld, .num q), hmem, by simp [hin, hcp]⟩
  refine ⟨hmemErr, ?_, ?_⟩
  · unfold constructMeasurementInput
    rw [if_neg fun h => by
      rw [h] at hmemErr
      exact absurd hmemErr (List.not_mem_nil _)]
  · intro m v hm
    unfold check_positive
    rw [if_pos hm]

/-- Witness for C10 at `height = 0`. -/
theorem nonpositive_measurement_rejected_witness :
    ("height must be positive") ∈
      measurementInputErrors [("height", RawValue.num 0)] ∧
    constructMeasurementInput [("height", RawValue.num 0)] =
      .error (measurementInputErrors [("height", RawValue.num 0)]) ∧
    ∀ (m : String) (v : RawValue), m ∈ SKIP_VALIDATION_FIELDS →
      check_positive m v = .ok v :=
  nonpositive_measurement_rejected [("height", RawValue.num 0)] "height" 0
    (by decide) le_rfl (List.mem_singleton.2 rfl)

/-! ## Remote invoker theorems (C2, C6, C7) -/

/-- Claim C2. With the default threshold 3, two recorded failures leave the
breaker closed, the third opens it; once open, the next invocation of
either tool short-circuits with `circuit_breaker_error` and performs zero
network attempts; one recorded success resets the counter to 0 and closes
the breaker. -/
theorem circuit_breaker_threshold_and_reset :
    CircuitBreaker.init.call_failed.call_failed.is_open = false ∧
    CircuitBreaker.init.call_failed.call_failed.call_failed.is_open = true ∧
    (∀ net : Nat → AttemptOutcome,
      validate_measurements net
          CircuitBreaker.init.call_failed.call_failed.call_failed =
        (.circuitOpen,
          CircuitBreaker.init.call_failed.call_failed.call_failed, 0) ∧
      recommend_sizes net
          CircuitBreaker.init.call_failed.call_failed.call_failed =
        (.circuitOpen,
          CircuitBreaker.init.call_failed.call_failed.call_failed, 0)) ∧
    (∀ b : CircuitBreaker,
      b.call_succeeded.failure_count = 0 ∧ b.call_succeeded.is_open = false) ∧
    ToolResult.circuitOpen.rtype = some "circuit_breaker_error" :=
  ⟨rfl, rfl, fun _ => ⟨rfl, rfl⟩, fun _ => ⟨rfl, rfl⟩, rfl⟩

/-- Claim C7. A call whose every attempt times out performs exactly
`MAX_RETRIES + 1` attempts (2 with the default `MAX_RETRIES = 1`), then
returns `timeout_error` and increments the breaker failure count once. -/
theorem timeout_exhausts_retry_budget (net : Nat → AttemptOutcome)
    (b : CircuitBreaker) (hnet : ∀ i, net i = .timeout)
    (hb : b.is_open = false) :
    validate_measurements net b =
      (.timeoutErr, b.call_failed, MAX_RETRIES + 1) ∧
    b.call_failed.failure_count = b.failure_count + 1 ∧
    ToolResult.timeoutErr.rtype = some "timeout_error" := by
  have h0 := hnet 0
  have h1 := hnet 1
  have hpost : post_with_retry net = (.timedOut, 2) := by
    simp [post_with_retry, postWithRetryAux, h0, h1, MAX_RETRIES]
  refine ⟨?_, rfl, rfl⟩
  simp [validate_measurements, hpost, CircuitBreaker.can_proceed, hb,
    MAX_RETRIES]

/-- Witness for C7: the constantly-timing-out network. -/
theorem timeout_exhausts_retry_budget_witness :
    (validate_measurements (fun _ => AttemptOutcome.timeout)
        CircuitBreaker.init =
      (.timeoutErr, CircuitBreaker.init.call_failed, MAX_RETRIES + 1)) ∧
    CircuitBreaker.init.call_failed.failure_count =
      CircuitBreaker.init.failure_count + 1 ∧
    ToolResult.timeoutErr.rtype = some "timeout_error" :=
  timeout_exhausts_retry_budget (fun _ => AttemptOutcome.timeout)
    CircuitBreaker.init (fun _ => rfl) rfl

/-- Claim C6 (amended). A 422 response is never retried by either operation.
For `validate_measurements` the detail payload is surfaced and the breaker
failure count is not incremented (it is reset to 0 through the success
path). For `recommend_sizes`, however, the 422 falls through to the
`unexpected_error` branch: the detail payload is not surfaced and the
breaker failure count *is* incremented. -/
theorem http422_handling_divergent (net : Nat → AttemptOutcome)
    (b : CircuitBreaker) (d : String) (h0 : net 0 = .resp 422 d)
    (hb : b.is_open = false) :
    validate_measurements net b = (.validation422 d, b.call_succeeded, 1) ∧
    b.call_succeeded.failure_count = 0 ∧
    recommend_sizes net b = (.unexpected 422, b.call_failed, 1) ∧
    b.call_failed.failure_count = b.failure_count + 1 := by
  have hpost : post_with_retry net = (.response 422 d, 1) := by
    simp [post_with_retry, postWithRetryAux, h0, MAX_RETRIES]
  refine ⟨?_, rfl, ?_, rfl⟩
  · simp [validate_measurements, hpost, CircuitBreaker.can_proceed, hb]
  · simp [recommend_sizes, hpost, CircuitBreaker.can_proceed, hb]

/-- Witness for the amended C6. -/
theorem http422_handling_divergent_witness :
    validate_measurements (fun _ => AttemptOutcome.resp 422 "err-detail")
        CircuitBreaker.init =
      (.validation422 "err-detail", CircuitBreaker.init.call_succeeded, 1) ∧
    CircuitBreaker.init.call_succeeded.failure_count = 0 ∧
    recommend_sizes (fun _ => AttemptOutcome.resp 422 "err-detail")
        CircuitBreaker.init =
      (.unexpected 422, CircuitBreaker.init.call_failed, 1) ∧
    CircuitBreaker.init.call_failed.failure_count =
      CircuitBreaker.init.failure_count + 1 :=
  http422_handling_divergent (fun _ => AttemptOutcome.resp 422 "err-detail")
    CircuitBreaker.init "err-detail" rfl rfl

/-- Claim C6 counterexample. On the recommend operation a 422 response *is*
counted as a circuit-breaker failure (count goes 0 → 1) and is returned as
`unexpected_error` without the detail payload, falsifying the claim for the
recommend operation. -/
theorem recommend_422_counted_as_breaker_failure :
    recommend_sizes (fun _ => AttemptOutcome.resp 422 "detail-payload")
        CircuitBreaker.init =
      (.unexpected 422, CircuitBreaker.init.call_failed, 1) ∧
    CircuitBreaker.init.failure_count = 0 ∧
    CircuitBreaker.init.call_failed.failure_count = 1 ∧
    (ToolResult.unexpected 422).rtype = some "unexpected_error" :=
  ⟨rfl, rfl, rfl, rfl⟩

end FitTwin
